import Mathlib

/-!
Shallow embedding of the mobile-screenshotter server (src/server/server.js,
both drafts contained in that file) for verification of its resolution
resolver, screenshot capture sequence and HTTP error behaviour.

Conventions:
* JavaScript numbers are modelled as `ℚ` where fractional values arise
  (scale factors, rotation), `ℕ` for parsed pixel dimensions, `ℤ` for
  rounded logical dimensions.
* `Math.round x` is `⌊x + 1/2⌋` (round half toward positive infinity),
  modelled by `jsRound`.
* External command invocations are made explicit: fallible steps take the
  would-be result as a parameter, and resolution paths additionally return
  the number of sample-screenshot captures the branch performs.
-/

/-- JavaScript `Math.round`: round to nearest, ties toward `+∞`,
i.e. `⌊q + 1/2⌋` (stated as `jsRound_eq_intFloor`). -/
def jsRound (q : ℚ) : ℤ := (q + 1/2).floor

/-- `jsRound` agrees with the mathematical floor of `q + 1/2`. -/
lemma jsRound_eq_intFloor (q : ℚ) : jsRound q = ⌊q + 1/2⌋ := rfl

/-- Evaluate `jsRound` by bracketing `q + 1/2` between `n` and `n + 1`. -/
lemma jsRound_eq_of (q : ℚ) (n : ℤ)
    (h1 : (n : ℚ) ≤ q + 1/2) (h2 : q + 1/2 < (n : ℚ) + 1) : jsRound q = n := by
  rw [jsRound_eq_intFloor]
  exact Int.floor_eq_iff.mpr ⟨h1, h2⟩

/-- Physical pixel dimensions (raw pixels, as parsed: nonnegative). -/
structure PDim where
  width : ℕ
  height : ℕ
deriving DecidableEq, Repr

/-- Logical (point) dimensions, results of `Math.round`. -/
structure LDim where
  width : ℤ
  height : ℤ
deriving DecidableEq, Repr

/-- The normalized resolution record built by the `/resolution` handlers:
`{physical, logical, density, scale, rotation, isLandscape}` plus the
optional `estimated` key (absent = `none`) of the JSON response body. -/
structure RRecord where
  physical : PDim
  logical : LDim
  density : ℚ
  scale : ℚ
  rotation : ℚ
  isLandscape : Bool
  estimated : Option Bool
deriving DecidableEq, Repr

/-- One row of the `iPhoneSpecs` table in server.js. -/
structure IOSSpec where
  name : String
  width : ℕ
  height : ℕ
  scale : ℕ
deriving DecidableEq, Repr

/-- The `iPhoneSpecs` lookup table of server.js (first draft), verbatim. -/
def iPhoneSpecs : List (String × IOSSpec) :=
  [ ("iPhone16,1", ⟨"iPhone 15 Pro", 1179, 2556, 3⟩),
    ("iPhone16,2", ⟨"iPhone 15 Pro Max", 1290, 2796, 3⟩),
    ("iPhone15,4", ⟨"iPhone 15 Plus", 1290, 2796, 3⟩),
    ("iPhone15,5", ⟨"iPhone 15", 1179, 2556, 3⟩),
    ("iPhone15,2", ⟨"iPhone 14 Pro", 1179, 2556, 3⟩),
    ("iPhone15,3", ⟨"iPhone 14 Pro Max", 1290, 2796, 3⟩),
    ("iPhone14,7", ⟨"iPhone 14", 1170, 2532, 3⟩),
    ("iPhone14,8", ⟨"iPhone 14 Plus", 1284, 2778, 3⟩),
    ("iPhone14,2", ⟨"iPhone 13 Pro", 1170, 2532, 3⟩),
    ("iPhone14,3", ⟨"iPhone 13 Pro Max", 1284, 2778, 3⟩),
    ("iPhone13,2", ⟨"iPhone 12", 1170, 2532, 3⟩),
    ("iPhone13,3", ⟨"iPhone 12 Pro", 1170, 2532, 3⟩),
    ("iPhone13,4", ⟨"iPhone 12 Pro Max", 1284, 2778, 3⟩) ]

/-- Result shape of `getIOSResolution` in server.js: `{physical, logical, scale}`. -/
structure IOSRes where
  physical : PDim
  logical : LDim
  scale : ℕ
deriving DecidableEq, Repr

/-- `getIOSResolution(productType)` from server.js (first draft): table hit
uses the tabulated dimensions and `Math.round(w/scale)`; a miss falls back
to the hard-coded modern-iPhone defaults `1179×2556 @3x`, logical `393×852`. -/
def getIOSResolution (productType : String) : IOSRes :=
  match iPhoneSpecs.lookup productType with
  | none => ⟨⟨1179, 2556⟩, ⟨393, 852⟩, 3⟩
  | some specs =>
      ⟨⟨specs.width, specs.height⟩,
       ⟨jsRound ((specs.width : ℚ) / (specs.scale : ℚ)),
        jsRound ((specs.height : ℚ) / (specs.scale : ℚ))⟩,
       specs.scale⟩

/-- The iOS branch of `/resolution` in the first draft: wraps
`getIOSResolution` into the response record with `density = scale*160`,
`rotation = 0`, `isLandscape = false`, no `estimated` key.  The second
component counts sample-screenshot captures performed by the branch: the
branch invokes no external command, so it is `0`. -/
def iosResolutionV1 (productType : String) : RRecord × ℕ :=
  let r := getIOSResolution productType
  (⟨r.physical, r.logical, (r.scale : ℚ) * 160, (r.scale : ℚ), 0, false, none⟩, 0)

/-- The iOS branch of `/resolution` in the second draft (sampled-inference
path): takes one screenshot via `idevicescreenshot`, reads its pixel
dimensions `w×h`, estimates `scale = if w > 1100 then 3 else 2`, computes
logical dimensions with `Math.round`, reports `density = scale*160`,
`rotation = 0`, `isLandscape = (w > h)`, and no `estimated` key.  The
second component counts sample captures: the branch performs exactly one. -/
def iosResolutionV2 (w h : ℕ) : RRecord × ℕ :=
  let scale : ℕ := if w > 1100 then 3 else 2
  (⟨⟨w, h⟩,
    ⟨jsRound ((w : ℚ) / (scale : ℚ)), jsRound ((h : ℚ) / (scale : ℚ))⟩,
    (scale : ℚ) * 160, (scale : ℚ), 0, decide (w > h), none⟩, 1)

/-- The Android branch of `/resolution` after parsing (both drafts are
identical): map the rotation signal (degrees, absent → 0) to a quarter-turn
count by division by 90; swap width/height when that count is 1 or 3 and
set `isLandscape`; `scale = density/160`; logical dimensions by
`Math.round(physical/scale)` on the post-swap values. -/
def androidComputeRot (rawW rawH density : ℕ) (rotation : ℚ) : RRecord :=
  let isL : Bool := decide (rotation = 1 ∨ rotation = 3)
  let pw : ℕ := if isL then rawH else rawW
  let ph : ℕ := if isL then rawW else rawH
  let scale : ℚ := (density : ℚ) / 160
  ⟨⟨pw, ph⟩,
   ⟨jsRound ((pw : ℚ) / scale), jsRound ((ph : ℚ) / scale)⟩,
   (density : ℚ), scale, rotation, isL, none⟩

/-- The Android branch of `/resolution` proper: the raw rotation signal in
degrees (absent on command failure or regex miss, defaulting the mapped
rotation to 0) is divided by 90 before the rest of the computation. -/
def androidCompute (rawW rawH density : ℕ) (rotDeg : Option ℕ) : RRecord :=
  androidComputeRot rawW rawH density
    (match rotDeg with
     | none => 0
     | some d => (d : ℚ) / 90)

/-- The spec's invariant formula: logical dimensions are the rounded
quotient of the (post-rotation) physical dimensions by the scale factor. -/
def roundInvariant (r : RRecord) : Prop :=
  r.logical.width = jsRound ((r.physical.width : ℚ) / r.scale) ∧
  r.logical.height = jsRound ((r.physical.height : ℚ) / r.scale)

instance (r : RRecord) : Decidable (roundInvariant r) := by
  unfold roundInvariant; infer_instance

/-! ### Parsers for the adb command outputs

The Android branch extracts values with the JS regexes `/(\d+)x(\d+)/`,
`/density:\s*(\d+)/` and `/ROTATION_(\d+)/`.  For these patterns, leftmost
matching with a maximal digit run is exactly the JS regex behaviour
(backtracking inside a `\d+` run never helps, since every shorter prefix of
a digit run is followed by a digit). -/

/-- Split off the maximal leading digit run. -/
def digitRun : List Char → List Char × List Char
  | [] => ([], [])
  | c :: cs =>
      if c.isDigit then
        let p := digitRun cs
        (c :: p.1, p.2)
      else ([], c :: cs)

/-- Decimal value of a digit run. -/
def digitsToNat (l : List Char) : ℕ :=
  l.foldl (fun a c => a * 10 + (c.toNat - 48)) 0

/-- Try to match `(\d+)x(\d+)` anchored at the start of the list. -/
def matchSizeAt (cs : List Char) : Option (ℕ × ℕ) :=
  let p := digitRun cs
  if p.1 = [] then none
  else
    match p.2 with
    | 'x' :: rest =>
        let q := digitRun rest
        if q.1 = [] then none else some (digitsToNat p.1, digitsToNat q.1)
    | _ => none

/-- Leftmost match of `(\d+)x(\d+)`. -/
def findSize : List Char → Option (ℕ × ℕ)
  | [] => none
  | c :: cs =>
      match matchSizeAt (c :: cs) with
      | some r => some r
      | none => findSize cs

/-- `output.match(/(\d+)x(\d+)/)` on the `adb shell wm size` output. -/
def parseSize (s : String) : Option (ℕ × ℕ) := findSize s.data

/-- Does `p` occur as a literal prefix of `cs`? -/
def litPrefix : List Char → List Char → Bool
  | [], _ => true
  | _ :: _, [] => false
  | p :: ps, c :: cs => p = c && litPrefix ps cs

/-- Skip `\s*` (whitespace). -/
def skipWs : List Char → List Char
  | [] => []
  | c :: cs => if c = ' ' ∨ c = '\t' ∨ c = '\n' ∨ c = '\r' then skipWs cs else c :: cs

/-- Try to match `density:\s*(\d+)` anchored at the start of the list. -/
def matchDensityAt (cs : List Char) : Option ℕ :=
  if litPrefix "density:".data cs then
    let p := digitRun (skipWs (cs.drop 8))
    if p.1 = [] then none else some (digitsToNat p.1)
  else none

/-- Leftmost match of `density:\s*(\d+)`. -/
def findDensity : List Char → Option ℕ
  | [] => none
  | c :: cs =>
      match matchDensityAt (c :: cs) with
      | some r => some r
      | none => findDensity cs

/-- `output.match(/density:\s*(\d+)/)` on the `adb shell wm density` output. -/
def parseDensity (s : String) : Option ℕ := findDensity s.data

/-- Try to match `ROTATION_(\d+)` anchored at the start of the list. -/
def matchRotationAt (cs : List Char) : Option ℕ :=
  if litPrefix "ROTATION_".data cs then
    let p := digitRun (cs.drop 9)
    if p.1 = [] then none else some (digitsToNat p.1)
  else none

/-- Leftmost match of `ROTATION_(\d+)`. -/
def findRotation : List Char → Option ℕ
  | [] => none
  | c :: cs =>
      match matchRotationAt (c :: cs) with
      | some r => some r
      | none => findRotation cs

/-- `output.match(/ROTATION_(\d+)/)` on the dumpsys rotation output. -/
def parseRotation (s : String) : Option ℕ := findRotation s.data

/-- The Android branch of `/resolution` end to end: parse the `wm size`
output (throwing `Could not parse screen size` on no match), the
`wm density` output (throwing on no match), and the optional rotation
output (command failure or no match silently defaults rotation to 0),
then build the record with `androidCompute`. -/
def androidResolution (sizeOut densityOut : String) (rotOut : Option String) :
    Except String RRecord :=
  match parseSize sizeOut with
  | none => .error "Could not parse screen size"
  | some wh =>
      match parseDensity densityOut with
      | none => .error "Could not parse screen density"
      | some d => .ok (androidCompute wh.1 wh.2 d (rotOut.bind parseRotation))

/-! ### HTTP endpoint models (first draft of server.js) -/

/-- Device family as stored in `connectedDevice.type`. -/
inductive DevType
  | android
  | ios
deriving DecidableEq, Repr

/-- The JSON body + status of a response from `/device`, `/resolution` or
`/screenshot`.  Keys that a branch does not set are `none`. -/
structure HttpResponse where
  status : ℕ
  success : Option Bool
  connected : Option Bool
  record : Option RRecord
  errCode : Option String
  message : Option String
deriving DecidableEq, Repr

/-- `GET /device`: when no device is connected it answers `res.json(...)`
(status 200) with `connected:false` and a message; otherwise 200 with
`connected:true` (the Android branch filling manufacturer/model from
`getprop`, defaults `Unknown` on failure — not modelled beyond the status
and `connected` flag relevant here). -/
def deviceEndpoint (isConnected : Bool) : HttpResponse :=
  if !isConnected then
    ⟨200, none, some false, none, none, some "No device connected"⟩
  else
    ⟨200, none, some true, none, none, none⟩

/-- `GET /resolution`: when no device is connected it answers
`res.status(400).json({error: 'No device connected'})` — no `message` key;
otherwise it runs the per-family branch (Android: parse/compute, a thrown
parse error is caught and answered as a 500 with `error` and `message`;
iOS: the lookup record). -/
def resolutionEndpoint (isConnected : Bool) (ty : DevType)
    (sizeOut densityOut : String) (rotOut : Option String)
    (productType : String) : HttpResponse :=
  if !isConnected then
    ⟨400, none, none, none, some "No device connected", none⟩
  else
    match ty with
    | .android =>
        match androidResolution sizeOut densityOut rotOut with
        | .error e =>
            ⟨500, none, none, none, some "Failed to get screen resolution", some e⟩
        | .ok r => ⟨200, some true, none, some r, none, none⟩
    | .ios =>
        ⟨200, some true, none, some (iosResolutionV1 productType).1, none, none⟩

/-! ### Screenshot capture sequence (first draft, Android branch)

The handler runs `adb shell screencap -p /sdcard/screenshot.png`, then
`adb pull` into the local temp PNG, then `adb shell rm` of the on-device
file, then converts to JPEG via sharp, unlinks the PNG, reads and unlinks
the JPEG.  Any failure jumps to the catch block, which unlinks the local
temp PNG if present and, only when `finalFile` was already switched to the
JPEG, unlinks the JPEG if present.  We model the filesystem footprint and
which step (if any) fails first. -/

/-- Which step of the Android capture sequence fails first (if any). -/
inductive FailAt
  | noFail
  | atScreencap
  | atPull
  | atRm
  | atSharp
deriving DecidableEq, Repr

/-- Filesystem footprint of the capture sequence: the on-device
`/sdcard/screenshot.png`, the local temp PNG and the local temp JPEG. -/
structure FsState where
  deviceFile : Bool
  localPng : Bool
  localJpg : Bool
deriving DecidableEq, Repr

/-- The catch-block cleanup: unlink the local temp PNG if it exists; unlink
the JPEG only if `finalFile` had already been switched to it and it exists.
It never touches the on-device file. -/
def catchCleanup (s : FsState) (finalIsJpg : Bool) : FsState :=
  let s1 := if s.localPng then { s with localPng := false } else s
  if finalIsJpg && s1.localJpg then { s1 with localJpg := false } else s1

/-- `GET /screenshot`, Android branch: returns the final filesystem state
and whether the handler answered with success.  `finalFile` is switched to
the JPEG only after the sharp conversion succeeded and the PNG was
unlinked; every failure happens before that, so the catch block always runs
with `finalIsJpg = false`. -/
def androidScreenshot (plan : FailAt) : FsState × Bool :=
  let s0 : FsState := ⟨false, false, false⟩
  if plan = .atScreencap then (catchCleanup s0 false, false)
  else
    let s1 := { s0 with deviceFile := true }
    if plan = .atPull then (catchCleanup s1 false, false)
    else
      let s2 := { s1 with localPng := true }
      if plan = .atRm then (catchCleanup s2 false, false)
      else
        let s3 := { s2 with deviceFile := false }
        if plan = .atSharp then (catchCleanup s3 false, false)
        else
          let s4 := { s3 with localJpg := true }
          let s5 := { s4 with localPng := false }
          let s6 := { s5 with localJpg := false }
          (s6, true)

/-- `GET /screenshot`: the no-device guard answers
`res.status(400).json({error: 'No device connected'})` — no `message` key. -/
def screenshotEndpoint (isConnected : Bool) (plan : FailAt) : HttpResponse :=
  if !isConnected then
    ⟨400, none, none, none, some "No device connected", none⟩
  else
    if (androidScreenshot plan).2 then
      ⟨200, some true, none, none, none, none⟩
    else
      ⟨500, none, none, none, some "Failed to capture screenshot",
        some "capture step failed"⟩

/-! ### Helper lemmas -/

/-- The record reports the mapped rotation value unchanged. -/
lemma androidComputeRot_rotation (rawW rawH density : ℕ) (rot : ℚ) :
    (androidComputeRot rawW rawH density rot).rotation = rot := rfl

/-- A rotation value of 1 or 3 makes the Android branch swap width/height
and set the landscape flag. -/
lemma androidComputeRot_swap (rawW rawH density : ℕ) (rot : ℚ)
    (h : rot = 1 ∨ rot = 3) :
    (androidComputeRot rawW rawH density rot).physical = ⟨rawH, rawW⟩ ∧
    (androidComputeRot rawW rawH density rot).isLandscape = true := by
  have hd : decide (rot = 1 ∨ rot = 3) = true := decide_eq_true h
  simp [androidComputeRot, hd]

/-- A rotation value other than 1 and 3 leaves width/height unswapped and
the landscape flag cleared. -/
lemma androidComputeRot_noswap (rawW rawH density : ℕ) (rot : ℚ)
    (h : ¬(rot = 1 ∨ rot = 3)) :
    (androidComputeRot rawW rawH density rot).physical = ⟨rawW, rawH⟩ ∧
    (androidComputeRot rawW rawH density rot).isLandscape = false := by
  have hd : decide (rot = 1 ∨ rot = 3) = false := decide_eq_false h
  simp [androidComputeRot, hd]

/-- C1: every resolution path — Android direct query, iOS lookup hit, iOS
lookup-miss fallback, and the sampled-inference path — produces a record
with `logical.width = round(physical.width / scaleFactor)` and
symmetrically for height, where round is JavaScript `Math.round`. -/
theorem C1_round_invariant_all_paths :
    (∀ rawW rawH density rotDeg,
      roundInvariant (androidCompute rawW rawH density rotDeg)) ∧
    (∀ productType, roundInvariant (iosResolutionV1 productType).1) ∧
    (∀ w h, roundInvariant (iosResolutionV2 w h).1) := by
  refine ⟨fun rawW rawH density rotDeg => ⟨rfl, rfl⟩, fun pt => ?_, fun w h => ⟨rfl, rfl⟩⟩
  unfold iosResolutionV1 getIOSResolution
  cases h : iPhoneSpecs.lookup pt with
  | none =>
      exact ⟨(jsRound_eq_of _ 393 (by norm_num) (by norm_num)).symm,
             (jsRound_eq_of _ 852 (by norm_num) (by norm_num)).symm⟩
  | some s => exact ⟨rfl, rfl⟩

/-- C2: every `modelCode` present in `iPhoneSpecs` resolves through the
table — tabulated physical dimensions and scale, logical dimensions by the
invariant formula, zero sample captures — and in particular `iPhone15,2`
yields physical 1179×2556, scale 3, logical 393×852. -/
theorem C2_lookup_short_circuit :
    (∀ productType s, iPhoneSpecs.lookup productType = some s →
      (iosResolutionV1 productType).1.physical = ⟨s.width, s.height⟩ ∧
      (iosResolutionV1 productType).1.scale = (s.scale : ℚ) ∧
      (iosResolutionV1 productType).1.logical =
        ⟨jsRound ((s.width : ℚ) / (s.scale : ℚ)),
         jsRound ((s.height : ℚ) / (s.scale : ℚ))⟩ ∧
      (iosResolutionV1 productType).2 = 0) ∧
    (iosResolutionV1 "iPhone15,2").1.physical = ⟨1179, 2556⟩ ∧
    (iosResolutionV1 "iPhone15,2").1.scale = 3 ∧
    (iosResolutionV1 "iPhone15,2").1.logical = ⟨393, 852⟩ ∧
    (iosResolutionV1 "iPhone15,2").2 = 0 := by
  constructor
  · intro pt s h
    unfold iosResolutionV1 getIOSResolution
    rw [h]
    exact ⟨rfl, rfl, rfl, rfl⟩
  · have h : iPhoneSpecs.lookup "iPhone15,2" =
        some ⟨"iPhone 14 Pro", 1179, 2556, 3⟩ := by decide
    unfold iosResolutionV1 getIOSResolution
    rw [h]
    refine ⟨rfl, by norm_num, ?_, rfl⟩
    exact congr (congrArg LDim.mk (jsRound_eq_of _ 393 (by norm_num) (by norm_num)))
      (jsRound_eq_of _ 852 (by norm_num) (by norm_num))

/-- Witness for C2, at the tabulated entry `iPhone15,2`. -/
theorem C2_lookup_short_circuit_witness :
    iPhoneSpecs.lookup "iPhone15,2" = some ⟨"iPhone 14 Pro", 1179, 2556, 3⟩ ∧
    (iosResolutionV1 "iPhone15,2").1.physical = ⟨1179, 2556⟩ ∧
    (iosResolutionV1 "iPhone15,2").1.scale = ((3 : ℕ) : ℚ) ∧
    (iosResolutionV1 "iPhone15,2").2 = 0 := by
  have h : iPhoneSpecs.lookup "iPhone15,2" =
      some ⟨"iPhone 14 Pro", 1179, 2556, 3⟩ := by decide
  have := C2_lookup_short_circuit.1 "iPhone15,2" ⟨"iPhone 14 Pro", 1179, 2556, 3⟩ h
  exact ⟨h, this.1, this.2.1, this.2.2.2⟩

/-- C4: a sampled screenshot of 1170×2532 is above the 1100-pixel width
cutoff, so the sampled-inference path estimates scale 3 and computes
logical dimensions 390×844. -/
theorem C4_sampled_scenario :
    (iosResolutionV2 1170 2532).1.scale = 3 ∧
    (iosResolutionV2 1170 2532).1.logical = ⟨390, 844⟩ ∧
    1170 > 1100 := by
  have hif : (if 1170 > 1100 then 3 else 2 : ℕ) = 3 := by norm_num
  refine ⟨?_, ?_, by norm_num⟩
  · show ((if 1170 > 1100 then 3 else 2 : ℕ) : ℚ) = 3
    rw [hif]; norm_num
  · show LDim.mk (jsRound ((1170 : ℚ) / ((if 1170 > 1100 then 3 else 2 : ℕ) : ℚ)))
        (jsRound ((2532 : ℚ) / ((if 1170 > 1100 then 3 else 2 : ℕ) : ℚ))) = ⟨390, 844⟩
    rw [hif]
    exact congr (congrArg LDim.mk (jsRound_eq_of _ 390 (by norm_num) (by norm_num)))
      (jsRound_eq_of _ 844 (by norm_num) (by norm_num))

/-- C10: every record from every path satisfies
`densityValue = scaleFactor × 160`: the Android branch defines
`scale = density / 160` and both iOS branches synthesize
`density = scale * 160`. -/
theorem C10_density_is_scale_times_160 :
    (∀ rawW rawH density rotDeg,
      (androidCompute rawW rawH density rotDeg).density =
        (androidCompute rawW rawH density rotDeg).scale * 160) ∧
    (∀ productType,
      (iosResolutionV1 productType).1.density =
        (iosResolutionV1 productType).1.scale * 160) ∧
    (∀ w h, (iosResolutionV2 w h).1.density = (iosResolutionV2 w h).1.scale * 160) := by
  refine ⟨fun rawW rawH d rotDeg => ?_, fun pt => rfl, fun w h => rfl⟩
  show (d : ℚ) = (d : ℚ) / 160 * 160
  rw [div_mul_cancel₀]
  norm_num

/-- C3 counterexample: the sampled-inference record carries no `estimated`
flag (the response never sets the key), and in the draft holding the lookup
table an unrecognized `modelCode` performs zero sample captures (it falls
back to hard-coded defaults instead of sampling). -/
theorem C3_counterexample :
    ¬((iosResolutionV2 1170 2532).1.estimated = some true) ∧
    (iosResolutionV1 "iPhone99,1").2 = 0 ∧
    (iosResolutionV1 "iPhone99,1").1.physical = ⟨1179, 2556⟩ := by
  refine ⟨by simp [iosResolutionV2], rfl, ?_⟩
  have h : iPhoneSpecs.lookup "iPhone99,1" = none := by decide
  unfold iosResolutionV1 getIOSResolution
  rw [h]

/-- C3 (amended): the sampled-inference path performs exactly one sample
capture and sets the scale deterministically by the width threshold
(`3` iff width `> 1100`, else `2`), but the record is not flagged as
estimated; the draft holding the lookup table answers an unrecognized
`modelCode` with hard-coded defaults `1179×2556 @3x` and zero captures,
also unflagged. -/
theorem C3_sampled_inference :
    (∀ w h, (iosResolutionV2 w h).2 = 1 ∧
      (iosResolutionV2 w h).1.scale = (if w > 1100 then (3 : ℚ) else 2) ∧
      (iosResolutionV2 w h).1.estimated = none) ∧
    (∀ productType, iPhoneSpecs.lookup productType = none →
      (iosResolutionV1 productType).2 = 0 ∧
      (iosResolutionV1 productType).1.physical = ⟨1179, 2556⟩ ∧
      (iosResolutionV1 productType).1.scale = 3 ∧
      (iosResolutionV1 productType).1.estimated = none) := by
  constructor
  · intro w h
    refine ⟨rfl, ?_, rfl⟩
    by_cases hw : w > 1100 <;> simp [iosResolutionV2, hw]
  · intro pt h
    unfold iosResolutionV1 getIOSResolution
    rw [h]
    refine ⟨rfl, rfl, by norm_num, rfl⟩

/-- Witness for C3 (amended), at an unrecognized `modelCode` and the
sampled dimensions 1170×2532. -/
theorem C3_sampled_inference_witness :
    iPhoneSpecs.lookup "iPhone99,1" = none ∧
    (iosResolutionV1 "iPhone99,1").2 = 0 ∧
    (iosResolutionV1 "iPhone99,1").1.scale = 3 ∧
    (iosResolutionV2 1170 2532).2 = 1 ∧
    (iosResolutionV2 1170 2532).1.estimated = none := by
  have h : iPhoneSpecs.lookup "iPhone99,1" = none := by decide
  have h1 := C3_sampled_inference.2 "iPhone99,1" h
  have h2 := C3_sampled_inference.1 1170 2532
  exact ⟨h, h1.1, h1.2.2.1, h2.1, h2.2.2⟩

/-- C5: on the Android branch, a rotation signal mapping to a quarter or
three-quarter turn swaps the reported physical width/height relative to
the raw queried values and sets `isLandscape`; a signal mapping to none or
half leaves them unswapped with `isLandscape = false`. -/
theorem C5_rotation_swap (rawW rawH density : ℕ) (rotDeg : Option ℕ) :
    ((androidCompute rawW rawH density rotDeg).rotation = 1 ∨
     (androidCompute rawW rawH density rotDeg).rotation = 3 →
      (androidCompute rawW rawH density rotDeg).physical = ⟨rawH, rawW⟩ ∧
      (androidCompute rawW rawH density rotDeg).isLandscape = true) ∧
    ((androidCompute rawW rawH density rotDeg).rotation = 0 ∨
     (androidCompute rawW rawH density rotDeg).rotation = 2 →
      (androidCompute rawW rawH density rotDeg).physical = ⟨rawW, rawH⟩ ∧
      (androidCompute rawW rawH density rotDeg).isLandscape = false) := by
  unfold androidCompute
  constructor
  · intro h
    exact androidComputeRot_swap rawW rawH density _ h
  · intro h
    refine androidComputeRot_noswap rawW rawH density _ ?_
    rintro (h13 | h13) <;> rcases h with h02 | h02 <;>
      rw [androidComputeRot_rotation] at h02 <;>
      rw [h02] at h13 <;> norm_num at h13

/-- Witness for C5: a 1080×2400 panel at 420 dpi, rotation signal 90
(quarter turn) swaps and flags landscape; rotation signal 0 does not. -/
theorem C5_rotation_swap_witness :
    ((androidCompute 1080 2400 420 (some 90)).physical = ⟨2400, 1080⟩ ∧
     (androidCompute 1080 2400 420 (some 90)).isLandscape = true) ∧
    ((androidCompute 1080 2400 420 (some 0)).physical = ⟨1080, 2400⟩ ∧
     (androidCompute 1080 2400 420 (some 0)).isLandscape = false) := by
  constructor
  · exact (C5_rotation_swap 1080 2400 420 (some 90)).1
      (Or.inl (show ((90 : ℕ) : ℚ) / 90 = 1 by norm_num))
  · exact (C5_rotation_swap 1080 2400 420 (some 0)).2
      (Or.inl (show ((0 : ℕ) : ℚ) / 90 = 0 by norm_num))

/-- C6 counterexample: an Android device whose raw queried size is
2560×1600 (landscape-natural panel) with rotation signal 90 gets the swap
applied, yielding `isLandscape = true` but `physical.width = 1600` not
greater than `physical.height = 2560` — the claimed invariant fails for
this combination of raw width, height and rotation signal. -/
theorem C6_counterexample :
    (androidCompute 2560 1600 320 (some 90)).isLandscape = true ∧
    ¬((androidCompute 2560 1600 320 (some 90)).physical.width >
      (androidCompute 2560 1600 320 (some 90)).physical.height) := by
  have h := androidComputeRot_swap 2560 1600 320 (((90 : ℕ) : ℚ) / 90)
    (Or.inl (by norm_num))
  unfold androidCompute
  refine ⟨h.2, ?_⟩
  rw [h.1]
  norm_num

/-- C6 (amended): whenever the raw queried width is strictly below the raw
queried height (portrait-natural panel, as the adb `wm size` comment
assumes), every Android record with `isLandscape = true` satisfies
`physical.width > physical.height`; on the sampled iOS path the invariant
holds unconditionally, and the lookup iOS path never sets `isLandscape`. -/
theorem C6_landscape_invariant :
    (∀ rawW rawH density rotDeg, rawW < rawH →
      (androidCompute rawW rawH density rotDeg).isLandscape = true →
      (androidCompute rawW rawH density rotDeg).physical.width >
        (androidCompute rawW rawH density rotDeg).physical.height) ∧
    (∀ w h, (iosResolutionV2 w h).1.isLandscape = true →
      (iosResolutionV2 w h).1.physical.width >
        (iosResolutionV2 w h).1.physical.height) ∧
    (∀ productType, (iosResolutionV1 productType).1.isLandscape = false) := by
  refine ⟨fun rawW rawH density rotDeg hwh hL => ?_, fun w h hL => ?_, fun pt => rfl⟩
  · unfold androidCompute at hL ⊢
    by_cases hrot : (match rotDeg with
        | none => (0 : ℚ)
        | some d => (d : ℚ) / 90) = 1 ∨ (match rotDeg with
        | none => (0 : ℚ)
        | some d => (d : ℚ) / 90) = 3
    · have h := androidComputeRot_swap rawW rawH density _ hrot
      rw [h.1]
      exact hwh
    · have h := androidComputeRot_noswap rawW rawH density _ hrot
      rw [h.2] at hL
      exact absurd hL (by simp)
  · have : w > h := by
      have : decide (w > h) = true := hL
      exact of_decide_eq_true this
    exact this

/-- Witness for C6 (amended): a 1080×2400 portrait-natural panel rotated a
quarter turn reports 2400×1080 with the invariant holding, and a sampled
2532×1170 screenshot on the iOS path likewise. -/
theorem C6_landscape_invariant_witness :
    (1080 < 2400 ∧
      (androidCompute 1080 2400 420 (some 90)).isLandscape = true ∧
      (androidCompute 1080 2400 420 (some 90)).physical.width >
        (androidCompute 1080 2400 420 (some 90)).physical.height) ∧
    ((iosResolutionV2 2532 1170).1.isLandscape = true ∧
      (iosResolutionV2 2532 1170).1.physical.width >
        (iosResolutionV2 2532 1170).1.physical.height) := by
  have hA : (androidCompute 1080 2400 420 (some 90)).isLandscape = true := by
    exact (androidComputeRot_swap 1080 2400 420 (((90 : ℕ) : ℚ) / 90)
      (Or.inl (by norm_num))).2
  have hI : (iosResolutionV2 2532 1170).1.isLandscape = true := by decide
  exact ⟨⟨by norm_num, hA, C6_landscape_invariant.1 1080 2400 420 (some 90)
            (by norm_num) hA⟩,
         ⟨hI, C6_landscape_invariant.2.1 2532 1170 hI⟩⟩

/-- C7: when the pull step of the Android capture sequence fails after the
on-device file was created, the handler's catch block removes only the
local temp files — the on-device `/sdcard/screenshot.png` is still present
after the call returns, contradicting the claimed cleanup invariant. -/
theorem C7_pull_failure_leaves_device_artifact :
    (androidScreenshot .atPull).1.deviceFile = true ∧
    (androidScreenshot .atPull).1.localPng = false ∧
    (androidScreenshot .atPull).1.localJpg = false ∧
    (androidScreenshot .atPull).2 = false := by
  refine ⟨rfl, rfl, rfl, rfl⟩

/-- C8 counterexample: with no device connected, the `/resolution` and
`/screenshot` responses carry the `error` code but no `message` field at
all, contradicting the claim that the body carries both. -/
theorem C8_counterexample :
    (resolutionEndpoint false .android "Physical size: 1080x2400"
      "Physical density: 420" none "").message = none ∧
    (screenshotEndpoint false .noFail).message = none := by
  exact ⟨rfl, rfl⟩

/-- C8 (amended): with no device connected, `/device` answers HTTP 200 with
`connected:false` (not an error status), while `/resolution` and
`/screenshot` answer HTTP 400 with the error code `No device connected`
but no separate human-readable `message` field. -/
theorem C8_no_device_responses :
    (deviceEndpoint false).status = 200 ∧
    (deviceEndpoint false).connected = some false ∧
    (∀ ty sizeOut densityOut rotOut productType,
      (resolutionEndpoint false ty sizeOut densityOut rotOut productType).status = 400 ∧
      (resolutionEndpoint false ty sizeOut densityOut rotOut
          productType).errCode = some "No device connected" ∧
      (resolutionEndpoint false ty sizeOut densityOut rotOut
          productType).message = none) ∧
    (∀ plan, (screenshotEndpoint false plan).status = 400 ∧
      (screenshotEndpoint false plan).errCode = some "No device connected" ∧
      (screenshotEndpoint false plan).message = none) := by
  exact ⟨rfl, rfl, fun ty a b c d => ⟨rfl, rfl, rfl⟩, fun plan => ⟨rfl, rfl, rfl⟩⟩

/-- C9: a `wm size` output of `Physical size: 0x0` parses (the digit-only
pattern matches `0x0`), and the Android branch returns a success record
with zero physical and logical dimensions instead of the parse failure the
claim requires — zero dimensions are silently propagated. -/
theorem C9_zero_dimensions_propagated :
    androidResolution "Physical size: 0x0" "Physical density: 480" none =
      .ok (androidCompute 0 0 480 none) ∧
    (androidCompute 0 0 480 none).physical = ⟨0, 0⟩ ∧
    (androidCompute 0 0 480 none).logical = ⟨0, 0⟩ := by
  refine ⟨rfl, rfl, ?_⟩
  exact congr (congrArg LDim.mk (jsRound_eq_of _ 0 (by norm_num) (by norm_num)))
    (jsRound_eq_of _ 0 (by norm_num) (by norm_num))
